import Mathlib

/-!
Verification of the path-building and batch-fetching logic of
`src/CodeSprints/AutomaticDataDownloads.ipynb`.

The notebook builds NOAA dataset URLs by string concatenation
(`filepaths = http_dir + dataset + "/" + lev_type + "/" + variable + time + file_type`),
derives local filenames (`filename = variable + time + file_type`), downloads a
single file with `urllib.request.urlretrieve(url, filename)`, and generates
multi-year paths from `range(1965, 1970)`.  The multi-file download loop
(Task 5) is left unimplemented in the notebook, so the batch fetcher is
modelled from the specification's contract.
-/

/-- Source constant `http_dir` from the notebook. -/
def http_dir : String := "https://downloads.psl.noaa.gov/Datasets/"

/-- Source constant `dataset` from the notebook. -/
def dataset : String := "ncep.reanalysis.dailyavgs"

/-- Source constant `lev_type` from the notebook. -/
def lev_type : String := "surface"

/-- Source constant `variable` from the notebook (renamed: `variable` is a Lean keyword). -/
def variablePrefix : String := "air.sig995."

/-- Source constant `time` from the notebook's single-file example. -/
def time : String := "2010"

/-- Source constant `file_type` from the notebook. -/
def file_type : String := ".nc"

/-- Source expression `filepaths = http_dir + dataset + "/" + lev_type + "/" + variable + time + file_type`. -/
def filepaths : String :=
  http_dir ++ dataset ++ "/" ++ lev_type ++ "/" ++ variablePrefix ++ time ++ file_type

/-- Source expression `filename = variable + time + file_type`. -/
def filename : String := variablePrefix ++ time ++ file_type

/-- The NamingTemplate record of the specification: the fixed components of the
URL convention.  In the notebook the `host` component is the variable
`http_dir`, whose value is the full directory prefix string. -/
structure NamingTemplate where
  host : String
  dataset : String
  category : String
  variablePrefix : String
  suffix : String
deriving DecidableEq, Repr

/-- The URL built for one token, mirroring the notebook's concatenation
`http_dir + dataset + "/" + lev_type + "/" + variable + time + file_type`. -/
def urlOf (t : NamingTemplate) (tok : String) : String :=
  t.host ++ t.dataset ++ "/" ++ t.category ++ "/" ++ t.variablePrefix ++ tok ++ t.suffix

/-- `buildPaths`: one URL per token, in input order, as in the notebook's
broadcast concatenation over the pandas series of year strings. -/
def buildPaths (t : NamingTemplate) : List String → List String
  | [] => []
  | tok :: rest => urlOf t tok :: buildPaths t rest

/-- The local artifact name for one token, mirroring the notebook's
`filename = variable + time + file_type`. -/
def localName (t : NamingTemplate) (tok : String) : String :=
  t.variablePrefix ++ tok ++ t.suffix

/-- The template the notebook instantiates: its `host` component is the
notebook's `http_dir` string. -/
def exTemplate : NamingTemplate :=
  { host := http_dir
    dataset := dataset
    category := lev_type
    variablePrefix := variablePrefix
    suffix := file_type }

/-- The template exactly as written in the spec's example, with
`host = "downloads.psl.noaa.gov"` (a bare host name). -/
def claimTemplate : NamingTemplate :=
  { host := "downloads.psl.noaa.gov"
    dataset := "ncep.reanalysis.dailyavgs"
    category := "surface"
    variablePrefix := "air.sig995."
    suffix := ".nc" }

/-- Python's `range(a, b)` as a list of naturals (for `a ≤ b`). -/
def pyRange (a b : Nat) : List Nat := List.range' a (b - a)

/-- The notebook's multi-year token series:
`time = pd.Series(list(range(1965, 1970))); time = time.apply(str)`. -/
def multiYearTokens : List String := (pyRange 1965 1970).map (fun n => toString n)

/-- `needle` occurs contiguously inside `hay`. -/
def isSubstrOf (needle hay : String) : Prop := ∃ p q : String, hay = p ++ needle ++ q

/-- Per-item result of the batch fetcher, as the spec's FetchResult record. -/
structure FetchResult where
  url : String
  localName : String
  success : Bool
  errorDetail : Option String
deriving DecidableEq, Repr

/-- Whether a fetch collaborator's answer is a success. -/
def fetchOk (r : Except String String) : Bool :=
  match r with
  | .ok _ => true
  | .error _ => false

/-- The FetchResult recorded for one item, from the collaborator's answer for
its URL. -/
def mkResult (u n : String) (r : Except String String) : FetchResult :=
  match r with
  | .ok _ => { url := u, localName := n, success := true, errorDetail := none }
  | .error e => { url := u, localName := n, success := false, errorDetail := some e }

/-- Modelled from the spec: the notebook leaves the Task 5 download loop blank,
so `fetchAll(urls, localNames)` follows the spec's contract — for each index in
order, ask the fetch collaborator (the stand-in for
`urllib.request.urlretrieve`) to retrieve the URL, record a FetchResult, and
continue with the remaining items whether or not the item failed. -/
def fetchAll (fetch : String → Except String String) :
    List String → List String → List FetchResult
  | u :: us, n :: ns => mkResult u n (fetch u) :: fetchAll fetch us ns
  | _, _ => []

/-- Item states of the spec's sequential state machine. -/
inductive ItemState where
  | Pending
  | Fetched
  | Failed
deriving DecidableEq, Repr

/-- The state an item ends in once processed: Fetched on success, Failed on
failure. -/
def stepOutcome (fetch : String → Except String String) (pair : String × String) : ItemState :=
  match fetch pair.1 with
  | .ok _ => ItemState.Fetched
  | .error _ => ItemState.Failed

/-- One transition of the sequential machine: step `k` processes item `k`
alone (out of range, nothing changes). -/
def setStep (fetch : String → Except String String) (pairs : List (String × String))
    (k : Nat) (σ : List ItemState) : List ItemState :=
  match pairs[k]? with
  | some pair => σ.set k (stepOutcome fetch pair)
  | none => σ

/-- Modelled from the spec: the item-state vector of the batch after `k` steps
of the strictly sequential machine — all items start Pending and step `k`
settles item `k`. -/
def runSteps (fetch : String → Except String String) (pairs : List (String × String)) :
    Nat → List ItemState
  | 0 => List.replicate pairs.length ItemState.Pending
  | k + 1 => setStep fetch pairs k (runSteps fetch pairs k)

/-- Modelled from the spec: the effect of retrieving one URL to one local name
on the local filesystem (a map from file name to content) — on success the
resource body is written to the given name, overwriting any existing file of
that name; on failure nothing is written. -/
def doFetch (fetch : String → Except String String) (fs : String → Option String)
    (url name : String) : String → Option String :=
  match fetch url with
  | .ok content => fun f => if f = name then some content else fs f
  | .error _ => fs

/-- Modelled from the spec: the filesystem after the whole batch has been
fetched sequentially. -/
def runFetchAll (fetch : String → Except String String) (pairs : List (String × String))
    (fs : String → Option String) : String → Option String :=
  match pairs with
  | [] => fs
  | (u, n) :: rest => runFetchAll fetch rest (doFetch fetch fs u n)

/-- A concrete mocked collaborator used by witnesses: fails on "u1", succeeds
elsewhere. -/
def mockFetch : String → Except String String :=
  fun u => if u = "u1" then Except.error "404 not found" else Except.ok "payload"

/- Helper lemmas about the path builder. -/

theorem buildPaths_eq_map (t : NamingTemplate) (toks : List String) :
    buildPaths t toks = toks.map (urlOf t) := by
  induction toks with
  | nil => rfl
  | cons a l ih => simp [buildPaths, ih]

/-- Claim C1: for every NamingTemplate and token sequence, `buildPaths` yields
exactly one URL per token, in input order, each formed by the fixed-order
concatenation host + dataset + "/" + category + "/" + variablePrefix + token +
suffix; the output has the same length as the input, and the empty token
sequence yields the empty sequence. -/
theorem buildPaths_one_url_per_token (t : NamingTemplate) (toks : List String) :
    (buildPaths t toks).length = toks.length ∧
    (∀ (i : Nat) (tok : String), toks[i]? = some tok →
      (buildPaths t toks)[i]? =
        some (t.host ++ t.dataset ++ "/" ++ t.category ++ "/" ++
          t.variablePrefix ++ tok ++ t.suffix)) ∧
    buildPaths t [] = [] := by
  refine ⟨?_, ?_, rfl⟩
  · rw [buildPaths_eq_map]
    exact List.length_map _ _
  · intro i tok h
    rw [buildPaths_eq_map, List.getElem?_map, h]
    rfl

/-- Witness for C1 at the notebook's template and the single token "1965". -/
theorem buildPaths_one_url_per_token_witness :
    (buildPaths exTemplate ["1965"])[0]? =
      some (exTemplate.host ++ exTemplate.dataset ++ "/" ++ exTemplate.category ++ "/" ++
        exTemplate.variablePrefix ++ "1965" ++ exTemplate.suffix) :=
  (buildPaths_one_url_per_token exTemplate ["1965"]).2.1 0 "1965" rfl

/-- Claim C2 counterexample: with `host = "downloads.psl.noaa.gov"` exactly as the
claim writes the template, the fixed-order concatenation of the source does NOT
produce the claimed https URLs (the scheme and the "/Datasets/" segment are part
of the notebook's `http_dir` component, not added by the builder). -/
theorem buildPaths_example_cex :
    buildPaths claimTemplate ["1965", "1966"] ≠
      ["https://downloads.psl.noaa.gov/Datasets/ncep.reanalysis.dailyavgs/surface/air.sig995.1965.nc",
       "https://downloads.psl.noaa.gov/Datasets/ncep.reanalysis.dailyavgs/surface/air.sig995.1966.nc"] := by
  decide

/-- Claim C2 (amended): with the host component equal to the notebook's
`http_dir` value "https://downloads.psl.noaa.gov/Datasets/", tokens
["1965", "1966"] map to exactly the two claimed URLs and the two claimed
local names. -/
theorem buildPaths_example :
    buildPaths exTemplate ["1965", "1966"] =
      ["https://downloads.psl.noaa.gov/Datasets/ncep.reanalysis.dailyavgs/surface/air.sig995.1965.nc",
       "https://downloads.psl.noaa.gov/Datasets/ncep.reanalysis.dailyavgs/surface/air.sig995.1966.nc"] ∧
    ["1965", "1966"].map (localName exTemplate) =
      ["air.sig995.1965.nc", "air.sig995.1966.nc"] := by
  exact ⟨by decide, by decide⟩

/-- Claim C3 counterexample: the token "196" of the batch ["1965", "196"] is a
substring of the URL built for the distinct token "1965", so a URL can contain
a token of the sequence other than its own. -/
theorem buildPaths_cross_token_cex :
    (buildPaths exTemplate ["1965", "196"])[0]? = some (urlOf exTemplate "1965") ∧
    "196" ≠ "1965" ∧
    isSubstrOf "196" (urlOf exTemplate "1965") := by
  refine ⟨rfl, by decide,
    ⟨"https://downloads.psl.noaa.gov/Datasets/ncep.reanalysis.dailyavgs/surface/air.sig995.",
     "5.nc", by decide⟩⟩

/-- Claim C3 (amended): for every NamingTemplate and token sequence of length N,
`buildPaths` returns exactly N URLs and the URL at each index contains the
token at that index as a substring (the exclusivity clause — that no URL
contains any other token — is dropped, being false when one token is a
substring of another's URL). -/
theorem buildPaths_own_token_substring (t : NamingTemplate) (toks : List String) :
    (buildPaths t toks).length = toks.length ∧
    ∀ (i : Nat) (tok : String), toks[i]? = some tok →
      ∃ url, (buildPaths t toks)[i]? = some url ∧ isSubstrOf tok url := by
  constructor
  · rw [buildPaths_eq_map]
    exact List.length_map _ _
  · intro i tok h
    refine ⟨urlOf t tok, ?_, ?_⟩
    · rw [buildPaths_eq_map, List.getElem?_map, h]
      rfl
    · exact ⟨t.host ++ t.dataset ++ "/" ++ t.category ++ "/" ++ t.variablePrefix,
        t.suffix, rfl⟩

/-- Witness for C3 (amended) at the notebook's template, token "1965", index 0. -/
theorem buildPaths_own_token_substring_witness :
    ∃ url, (buildPaths exTemplate ["1965"])[0]? = some url ∧ isSubstrOf "1965" url :=
  (buildPaths_own_token_substring exTemplate ["1965"]).2 0 "1965" rfl

/-- Claim C4: `buildPaths` and the local-name derivation are pure and
deterministic — identical template and token arguments yield identical URLs
and an identical, unique local-artifact name; no hidden state affects either
result (both are total functions of their arguments in this embedding). -/
theorem buildPaths_pure (t t' : NamingTemplate) (toks toks' : List String)
    (tok tok' : String) (h1 : t = t') (h2 : toks = toks') (h3 : tok = tok') :
    buildPaths t toks = buildPaths t' toks' ∧ localName t tok = localName t' tok' := by
  subst h1
  subst h2
  subst h3
  exact ⟨rfl, rfl⟩

/-- Witness for C4 at the notebook's template and the token "1965". -/
theorem buildPaths_pure_witness :
    buildPaths exTemplate ["1965"] = buildPaths exTemplate ["1965"] ∧
    localName exTemplate "1965" = localName exTemplate "1965" :=
  buildPaths_pure exTemplate exTemplate ["1965"] ["1965"] "1965" "1965" rfl rfl rfl

/- Helper lemmas about the batch fetcher. -/

theorem mkResult_success (u n : String) (r : Except String String) :
    (mkResult u n r).success = fetchOk r := by
  cases r <;> rfl

theorem mkResult_localName (u n : String) (r : Except String String) :
    (mkResult u n r).localName = n := by
  cases r <;> rfl

theorem mkResult_url (u n : String) (r : Except String String) :
    (mkResult u n r).url = u := by
  cases r <;> rfl

theorem fetchAll_nil (fetch : String → Except String String) (ns : List String) :
    fetchAll fetch [] ns = [] := by
  cases ns <;> rfl

theorem fetchAll_cons (fetch : String → Except String String) (u n : String)
    (us ns : List String) :
    fetchAll fetch (u :: us) (n :: ns) = mkResult u n (fetch u) :: fetchAll fetch us ns := rfl

theorem fetchAll_length (fetch : String → Except String String) :
    ∀ us ns : List String, us.length = ns.length →
      (fetchAll fetch us ns).length = us.length := by
  intro us
  induction us with
  | nil => intro ns _; simp [fetchAll_nil]
  | cons u us ih =>
    intro ns h
    cases ns with
    | nil => simp at h
    | cons n ns =>
      rw [fetchAll_cons]
      simp only [List.length_cons]
      rw [ih ns (by simpa using h)]

theorem fetchAll_map_url (fetch : String → Except String String) :
    ∀ us ns : List String, us.length = ns.length →
      (fetchAll fetch us ns).map FetchResult.url = us := by
  intro us
  induction us with
  | nil => intro ns _; rw [fetchAll_nil]; rfl
  | cons u us ih =>
    intro ns h
    cases ns with
    | nil => simp at h
    | cons n ns =>
      rw [fetchAll_cons, List.map_cons, mkResult_url, ih ns (by simpa using h)]

theorem fetchAll_countP_fail (fetch : String → Except String String) :
    ∀ us ns : List String, us.length = ns.length →
      (fetchAll fetch us ns).countP (fun r => !r.success) =
        us.countP (fun u => !fetchOk (fetch u)) := by
  intro us
  induction us with
  | nil => intro ns _; rw [fetchAll_nil]; rfl
  | cons u us ih =>
    intro ns h
    cases ns with
    | nil => simp at h
    | cons n ns =>
      rw [fetchAll_cons]
      simp only [List.countP_cons, mkResult_success]
      rw [ih ns (by simpa using h)]

theorem fetchAll_countP_succ (fetch : String → Except String String) :
    ∀ us ns : List String, us.length = ns.length →
      (fetchAll fetch us ns).countP (fun r => r.success) =
        us.countP (fun u => fetchOk (fetch u)) := by
  intro us
  induction us with
  | nil => intro ns _; rw [fetchAll_nil]; rfl
  | cons u us ih =>
    intro ns h
    cases ns with
    | nil => simp at h
    | cons n ns =>
      rw [fetchAll_cons]
      simp only [List.countP_cons, mkResult_success]
      rw [ih ns (by simpa using h)]

theorem countP_bool_split {α : Type} (p : α → Bool) (l : List α) :
    l.countP p + l.countP (fun a => !p a) = l.length := by
  induction l with
  | nil => rfl
  | cons a l ih =>
    simp only [List.countP_cons, List.length_cons]
    cases h : p a <;> simp [h] <;> omega

/-- Claim C5: with a fetch collaborator that always succeeds, `fetchAll` over
the batch derived from a template and tokens returns exactly one FetchResult
per token, all marked success, each with localName equal to
variablePrefix + token + suffix. -/
theorem fetchAll_all_success (fetch : String → Except String String)
    (t : NamingTemplate) (toks : List String)
    (h : ∀ u, fetchOk (fetch u) = true) :
    (fetchAll fetch (buildPaths t toks) (toks.map (localName t))).length = toks.length ∧
    (∀ r ∈ fetchAll fetch (buildPaths t toks) (toks.map (localName t)), r.success = true) ∧
    (fetchAll fetch (buildPaths t toks) (toks.map (localName t))).map FetchResult.localName =
      toks.map (fun tok => t.variablePrefix ++ tok ++ t.suffix) := by
  induction toks with
  | nil =>
    refine ⟨rfl, ?_, rfl⟩
    intro r hr
    simp [buildPaths, fetchAll_nil] at hr
  | cons a l ih =>
    obtain ⟨ih1, ih2, ih3⟩ := ih
    rw [show buildPaths t (a :: l) = urlOf t a :: buildPaths t l from rfl,
      List.map_cons, fetchAll_cons]
    refine ⟨?_, ?_, ?_⟩
    · simp only [List.length_cons, ih1]
    · intro r hr
      rcases List.mem_cons.mp hr with h1 | h2
      · rw [h1, mkResult_success]
        exact h _
      · exact ih2 r h2
    · simp only [List.map_cons, mkResult_localName, ih3]
      rfl

/-- Witness for C5: an always-succeeding collaborator on the one-token batch. -/
theorem fetchAll_all_success_witness :
    (fetchAll (fun _ => Except.ok "payload") (buildPaths exTemplate ["1965"])
        (["1965"].map (localName exTemplate))).map FetchResult.localName =
      ["1965"].map (fun tok => exTemplate.variablePrefix ++ tok ++ exTemplate.suffix) :=
  (fetchAll_all_success (fun _ => Except.ok "payload") exTemplate ["1965"]
    (fun _ => rfl)).2.2

/-- Claim C6: with a fetch collaborator that fails on exactly one of the N
items, `fetchAll` still returns N results, exactly one marked failure and the
other N-1 marked success, and every item of the batch is processed (the result
list covers all N input URLs in order — no early abort). -/
theorem fetchAll_one_failure (fetch : String → Except String String)
    (us ns : List String) (hlen : us.length = ns.length)
    (hone : us.countP (fun u => !fetchOk (fetch u)) = 1) :
    (fetchAll fetch us ns).length = us.length ∧
    (fetchAll fetch us ns).countP (fun r => !r.success) = 1 ∧
    (fetchAll fetch us ns).countP (fun r => r.success) = us.length - 1 ∧
    (fetchAll fetch us ns).map FetchResult.url = us := by
  refine ⟨fetchAll_length fetch us ns hlen, ?_, ?_, fetchAll_map_url fetch us ns hlen⟩
  · rw [fetchAll_countP_fail fetch us ns hlen, hone]
  · rw [fetchAll_countP_succ fetch us ns hlen]
    have h2 := countP_bool_split (fun u => fetchOk (fetch u)) us
    simp only at h2 hone
    omega

/-- Witness for C6: the mocked collaborator fails exactly on "u1" in a
two-item batch. -/
theorem fetchAll_one_failure_witness :
    (fetchAll mockFetch ["u0", "u1"] ["n0", "n1"]).length =
      (["u0", "u1"] : List String).length ∧
    (fetchAll mockFetch ["u0", "u1"] ["n0", "n1"]).countP (fun r => !r.success) = 1 ∧
    (fetchAll mockFetch ["u0", "u1"] ["n0", "n1"]).countP (fun r => r.success) =
      (["u0", "u1"] : List String).length - 1 ∧
    (fetchAll mockFetch ["u0", "u1"] ["n0", "n1"]).map FetchResult.url = ["u0", "u1"] :=
  fetchAll_one_failure mockFetch ["u0", "u1"] ["n0", "n1"] rfl rfl

/- Helper lemmas about the sequential state machine. -/

theorem runSteps_length (fetch : String → Except String String)
    (pairs : List (String × String)) :
    ∀ k : Nat, (runSteps fetch pairs k).length = pairs.length := by
  intro k
  induction k with
  | zero => simp [runSteps]
  | succ k ih =>
    cases h : pairs[k]? with
    | some pair => simp [runSteps, setStep, h, ih]
    | none => simp [runSteps, setStep, h, ih]

theorem runSteps_getElem (fetch : String → Except String String)
    (pairs : List (String × String)) :
    ∀ (k i : Nat) (pair : String × String), pairs[i]? = some pair →
      (runSteps fetch pairs k)[i]? =
        some (if i < k then stepOutcome fetch pair else ItemState.Pending) := by
  intro k
  induction k with
  | zero =>
    intro i pair hp
    obtain ⟨hi, _⟩ := List.getElem?_eq_some.mp hp
    simp [runSteps, List.getElem?_replicate, hi]
  | succ k ih =>
    intro i pair hp
    obtain ⟨hi, _⟩ := List.getElem?_eq_some.mp hp
    cases hk : pairs[k]? with
    | none =>
      have hklen : pairs.length ≤ k := by
        by_contra hcon
        push_neg at hcon
        rw [List.getElem?_eq_getElem hcon] at hk
        exact Option.noConfusion hk
      have h1 : i < k := lt_of_lt_of_le hi hklen
      have hrw : runSteps fetch pairs (k + 1) = runSteps fetch pairs k := by
        simp [runSteps, setStep, hk]
      rw [hrw, ih i pair hp]
      simp [h1, Nat.lt_succ_of_lt h1]
    | some pk =>
      have hrw : runSteps fetch pairs (k + 1) =
          (runSteps fetch pairs k).set k (stepOutcome fetch pk) := by
        simp [runSteps, setStep, hk]
      rw [hrw]
      by_cases hik : i = k
      · subst hik
        have hpair : pk = pair := by
          rw [hp] at hk
          exact (Option.some.inj hk).symm
        rw [List.getElem?_set_eq_of_lt _ (by rw [runSteps_length]; exact hi)]
        simp [hpair, Nat.lt_succ_self]
      · rw [List.getElem?_set_ne (Ne.symm hik), ih i pair hp]
        by_cases hlt : i < k
        · simp [hlt, Nat.lt_succ_of_lt hlt]
        · have h2 : ¬ i < k + 1 := by omega
          simp [hlt, h2]

/-- Claim C7: the batch fetcher is a strictly sequential state machine — every
item starts Pending; step k settles item k alone (items are processed one at a
time, in index order); a processed item is in exactly one of Fetched or
Failed; and once an item has been processed its state never changes again (no
transition out of Fetched or Failed). -/
theorem fetchAll_sequential (fetch : String → Except String String)
    (pairs : List (String × String)) (k i j m : Nat)
    (hk : k < pairs.length) (hik : i ≠ k) (hj : j < k) (hkm : k ≤ m) :
    runSteps fetch pairs 0 = List.replicate pairs.length ItemState.Pending ∧
    (runSteps fetch pairs k)[k]? = some ItemState.Pending ∧
    ((runSteps fetch pairs (k + 1))[k]? = some ItemState.Fetched ∨
      (runSteps fetch pairs (k + 1))[k]? = some ItemState.Failed) ∧
    (runSteps fetch pairs (k + 1))[i]? = (runSteps fetch pairs k)[i]? ∧
    (runSteps fetch pairs m)[j]? = (runSteps fetch pairs k)[j]? := by
  obtain ⟨pk, hpkeq⟩ : ∃ pk, pairs[k]? = some pk := ⟨pairs[k], List.getElem?_eq_getElem hk⟩
  refine ⟨rfl, ?_, ?_, ?_, ?_⟩
  · rw [runSteps_getElem fetch pairs k k pk hpkeq]
    simp
  · rw [runSteps_getElem fetch pairs (k + 1) k pk hpkeq]
    simp only [Nat.lt_succ_self, if_pos]
    cases hf : fetch pk.1 with
    | error e =>
      right
      simp [stepOutcome, hf]
    | ok c =>
      left
      simp [stepOutcome, hf]
  · by_cases hi : i < pairs.length
    · obtain ⟨pi, hpieq⟩ : ∃ pi, pairs[i]? = some pi := ⟨pairs[i], List.getElem?_eq_getElem hi⟩
      rw [runSteps_getElem fetch pairs (k + 1) i pi hpieq,
        runSteps_getElem fetch pairs k i pi hpieq]
      by_cases hlt : i < k
      · simp [hlt, Nat.lt_succ_of_lt hlt]
      · have h2 : ¬ i < k + 1 := by omega
        simp [hlt, h2]
    · push_neg at hi
      have h1 : (runSteps fetch pairs (k + 1))[i]? = none :=
        List.getElem?_eq_none (by rw [runSteps_length]; exact hi)
      have h2 : (runSteps fetch pairs k)[i]? = none :=
        List.getElem?_eq_none (by rw [runSteps_length]; exact hi)
      rw [h1, h2]
  · have hjlen : j < pairs.length := lt_trans hj hk
    obtain ⟨pj, hpjeq⟩ : ∃ pj, pairs[j]? = some pj := ⟨pairs[j], List.getElem?_eq_getElem hjlen⟩
    rw [runSteps_getElem fetch pairs m j pj hpjeq,
      runSteps_getElem fetch pairs k j pj hpjeq]
    have h1 : j < m := lt_of_lt_of_le hj hkm
    simp [hj, h1]

/-- Witness for C7: the two-item batch with the mocked collaborator, at step
k = 1, frame index i = 0, settled index j = 0, later time m = 2. -/
theorem fetchAll_sequential_witness :
    runSteps mockFetch [("u0", "n0"), ("u1", "n1")] 0 =
      List.replicate ([("u0", "n0"), ("u1", "n1")] : List (String × String)).length
        ItemState.Pending ∧
    (runSteps mockFetch [("u0", "n0"), ("u1", "n1")] 1)[1]? = some ItemState.Pending ∧
    ((runSteps mockFetch [("u0", "n0"), ("u1", "n1")] (1 + 1))[1]? = some ItemState.Fetched ∨
      (runSteps mockFetch [("u0", "n0"), ("u1", "n1")] (1 + 1))[1]? = some ItemState.Failed) ∧
    (runSteps mockFetch [("u0", "n0"), ("u1", "n1")] (1 + 1))[0]? =
      (runSteps mockFetch [("u0", "n0"), ("u1", "n1")] 1)[0]? ∧
    (runSteps mockFetch [("u0", "n0"), ("u1", "n1")] 2)[0]? =
      (runSteps mockFetch [("u0", "n0"), ("u1", "n1")] 1)[0]? :=
  fetchAll_sequential mockFetch [("u0", "n0"), ("u1", "n1")] 1 0 0 2
    (by decide) (by decide) (by decide) (by decide)

/- Helper lemma about the filesystem model. -/

theorem runFetchAll_frame_aux (fetch : String → Except String String) :
    ∀ (pairs : List (String × String)) (fs : String → Option String) (f : String),
      f ∉ pairs.map Prod.snd → runFetchAll fetch pairs fs f = fs f := by
  intro pairs
  induction pairs with
  | nil => intro fs f _; rfl
  | cons p rest ih =>
    intro fs f hf
    obtain ⟨pu, pn⟩ := p
    simp only [List.map_cons, List.mem_cons] at hf
    push_neg at hf
    have h1 : runFetchAll fetch ((pu, pn) :: rest) fs f =
        runFetchAll fetch rest (doFetch fetch fs pu pn) f := rfl
    rw [h1, ih (doFetch fetch fs pu pn) f hf.2]
    cases hpu : fetch pu with
    | error e => simp [doFetch, hpu]
    | ok c => simp [doFetch, hpu, hf.1]

/-- Claim C8: a successful fetch of one item writes the retrieved content to
its given local name, overwriting whatever that name held; it changes no file
of any other name; and a whole batch leaves every file whose name is not one
of the batch's local names untouched — a local artifact is only ever created
or replaced by the fetch addressed to its own name. -/
theorem localArtifact_frame (fetch : String → Except String String)
    (fs : String → Option String) (u n c : String) (hc : fetch u = Except.ok c)
    (g : String) (hg : g ≠ n) (pairs : List (String × String)) (f : String)
    (hf : f ∉ pairs.map Prod.snd) :
    doFetch fetch fs u n n = some c ∧
    doFetch fetch fs u n g = fs g ∧
    runFetchAll fetch pairs fs f = fs f := by
  refine ⟨?_, ?_, runFetchAll_frame_aux fetch pairs fs f hf⟩
  · simp [doFetch, hc]
  · simp [doFetch, hc, hg]

/-- Witness for C8: the mocked collaborator succeeds on "u0"; the file "zz" is
outside the one-item batch and survives unchanged. -/
theorem localArtifact_frame_witness :
    doFetch mockFetch (fun _ => none) "u0" "n0" "n0" = some "payload" ∧
    doFetch mockFetch (fun _ => none) "u0" "n0" "g0" =
      (fun _ => (none : Option String)) "g0" ∧
    runFetchAll mockFetch [("u0", "n0")] (fun _ => none) "zz" =
      (fun _ => (none : Option String)) "zz" :=
  localArtifact_frame mockFetch (fun _ => none) "u0" "n0" "payload" rfl "g0"
    (by decide) [("u0", "n0")] "zz" (by decide)

/-- Claim C9: for every template and token, the URL decomposes as the directory
prefix host + dataset + "/" + category + "/" followed by the local name
variablePrefix + token + suffix, so every URL ends with its own local name; in
particular the notebook's `filepaths` is its directory prefix followed by its
`filename`. -/
theorem url_ends_with_localName (t : NamingTemplate) (tok : String) :
    urlOf t tok = (t.host ++ t.dataset ++ "/" ++ t.category ++ "/") ++ localName t tok ∧
    (∃ pre, urlOf t tok = pre ++ localName t tok) ∧
    filepaths = (http_dir ++ dataset ++ "/" ++ lev_type ++ "/") ++ filename := by
  have h : urlOf t tok = (t.host ++ t.dataset ++ "/" ++ t.category ++ "/") ++ localName t tok := by
    simp [urlOf, localName, String.append_assoc]
  exact ⟨h, ⟨_, h⟩, by simp [filepaths, filename, String.append_assoc]⟩

/-- Claim C10: the notebook's token generator `range(1965, 1970)` converted to
strings yields exactly the five tokens "1965" … "1969", in strictly ascending
order with the end 1970 excluded; the tokens are pairwise distinct, and so are
all derived URLs and local filenames of the batch — no local file of the batch
is overwritten by another item of the same batch. -/
theorem multiYear_batch_distinct :
    multiYearTokens = ["1965", "1966", "1967", "1968", "1969"] ∧
    List.Pairwise (· < ·) (pyRange 1965 1970) ∧
    (1970 : Nat) ∉ pyRange 1965 1970 ∧
    multiYearTokens.Nodup ∧
    (buildPaths exTemplate multiYearTokens).Nodup ∧
    (multiYearTokens.map (localName exTemplate)).Nodup :=
  ⟨by decide, by decide, by decide, by decide, by decide, by decide⟩
